import Mathlib

/-!
Verification of `src/Leaderboard.ts` (LeaderboardTS): a shallow embedding of
the leaderboard engine and of the Redis sorted-set primitives it calls,
followed by theorems settling the specification claims.

Modelling conventions:
* JS numbers are modelled as `ℚ`; the one place the code manufactures `NaN`
  (`parseFloat(null)` in `getScoreFor`) is modelled by a dedicated value of
  the result type `JsVal`.
* A Redis sorted set is an association list `List (String × ℚ)` with unique
  member keys; ranks are computed by counting, which matches Redis ordering
  (score ascending, ties broken by member name ascending).
* A store call that can fail is modelled by `Except String reply`; the
  callback logic of the engine is embedded as a pure function of that value.
-/

set_option autoImplicit false

namespace LeaderboardTS

/-- Source enum SortOrders: Ascending = 0, Descending = 1. -/
inductive SortOrders where
  | Ascending
  | Descending
deriving DecidableEq

/-- The engine state held by a `Leaderboard` instance: name, page size and
sort order (`ILeaderboardOptions` after constructor defaulting). -/
structure LeaderboardOptions where
  name : String
  pageSize : ℚ
  sortOrder : SortOrders
deriving DecidableEq

/-- Source constant `Leaderboard.DEFAULT_PAGE_SIZE`, 50. -/
def DEFAULT_PAGE_SIZE : ℚ := 50

/-- Source constant `Leaderboard.DEFAULT_SORT_ORDER`, `SortOrders.Ascending`. -/
def DEFAULT_SORT_ORDER : SortOrders := SortOrders.Ascending

/-- Constructor defaulting of the page size, from
`if (!leaderboardOptions.pageSize || leaderboardOptions.pageSize < 0)`:
a missing page size (`none`), the falsy number `0`, or a negative one is
replaced by `DEFAULT_PAGE_SIZE`. -/
def resolvePageSize (ps : Option ℚ) : ℚ :=
  match ps with
  | none => DEFAULT_PAGE_SIZE
  | some p => if p = 0 ∨ p < 0 then DEFAULT_PAGE_SIZE else p

/-- Constructor defaulting of the sort order, from
`if (!leaderboardOptions.sortOrder)`: a missing sort order — or the value
`Ascending`, whose enum value `0` is falsy — becomes `DEFAULT_SORT_ORDER`
(itself `Ascending`). -/
def resolveSortOrder (so : Option SortOrders) : SortOrders :=
  match so with
  | none => DEFAULT_SORT_ORDER
  | some s => if s = SortOrders.Ascending then DEFAULT_SORT_ORDER else s

/-- The leaderboard-options part of `constructor(leaderboardName, leaderboardOptions?, ...)`:
the Redis connection fields are plumbing outside the model. -/
def mkLeaderboard (leaderboardName : String) (ps : Option ℚ) (so : Option SortOrders) :
    LeaderboardOptions :=
  { name := leaderboardName
    pageSize := resolvePageSize ps
    sortOrder := resolveSortOrder so }

/-- The `pageSize` setter: `if (value !== this.leaderboardOptions.pageSize)
{ this.leaderboardOptions.pageSize = value; }` — no validation. -/
def setPageSize (value : ℚ) (opts : LeaderboardOptions) : LeaderboardOptions :=
  if value ≠ opts.pageSize then { opts with pageSize := value } else opts

/-! ### The Redis sorted-set store -/

/-- A Redis sorted set: association list of member name and score. States
built by `zadd` from the empty set have pairwise-distinct member names. -/
abbrev ZSet := List (String × ℚ)

/-- The member names occurring in a sorted set. -/
def keys (st : ZSet) : List String := st.map Prod.fst

/-- Primitive `ZSCORE`: the score of `m`, or `none` when `m` is not a member. -/
def zscore (st : ZSet) (m : String) : Option ℚ :=
  (st.find? (fun p => p.1 == m)).map Prod.snd

/-- Primitive `ZCARD`: the number of members. -/
def zcard (st : ZSet) : Nat := st.length

/-- Primitive `ZRANK`: 0-based index of `m` in ascending score order, ties broken by
member name ascending (in Lean, `String.lt` is exactly `List.lt` on `.data`,
written in that form here); `none` when `m` is absent. -/
def zrank (st : ZSet) (m : String) : Option Nat :=
  match zscore st m with
  | none => none
  | some s => some (st.countP (fun p => decide (p.2 < s ∨ (p.2 = s ∧ p.1.data < m.data))))

/-- Primitive `ZREVRANK`: 0-based index of `m` in descending score order, ties broken
by member name descending; `none` when `m` is absent. -/
def zrevrank (st : ZSet) (m : String) : Option Nat :=
  match zscore st m with
  | none => none
  | some s => some (st.countP (fun p => decide (s < p.2 ∨ (p.2 = s ∧ m.data < p.1.data))))

/-- Primitive `ZADD`: upsert — update the score of an existing member in place, or
append a new member. -/
def zadd (st : ZSet) (m : String) (s : ℚ) : ZSet :=
  match st with
  | [] => [(m, s)]
  | p :: rest => if p.1 = m then (m, s) :: rest else p :: zadd rest m s

/-! ### Engine operations -/

/-- Operation `rankMember(member, score)`: `client.zadd(name, score, member)`. -/
def rankMember (st : ZSet) (m : String) (s : ℚ) : ZSet := zadd st m s

/-- Operation `memberCount()`: `client.zcard(name)`. -/
def memberCount (st : ZSet) : Nat := zcard st

/-- A JavaScript value as delivered to a result callback: `null`, `NaN`, or
an ordinary number. -/
inductive JsVal where
  | null
  | nan
  | num (q : ℚ)
deriving DecidableEq

/-- JavaScript `parseFloat(result)` applied to a `ZSCORE` reply: a present score parses
back to itself; `parseFloat(null)` is `NaN` in JavaScript. -/
def parseFloatReply (r : Option ℚ) : JsVal :=
  match r with
  | some q => JsVal.num q
  | none => JsVal.nan

/-- Callback logic of `getScoreFor`: on a store error the callback receives
`(null, null)`; on success it receives `(error, parseFloat(result))` where
`error` is `null` on that branch. Result is the `(error, result)` pair. -/
def getScoreForCb (reply : Except String (Option ℚ)) : Option String × JsVal :=
  match reply with
  | Except.ok result => (none, parseFloatReply result)
  | Except.error _ => (none, JsVal.null)

/-- Operation `getScoreFor(member)` on the successful-store path. -/
def getScoreFor (st : ZSet) (m : String) : JsVal :=
  (getScoreForCb (Except.ok (zscore st m))).2

/-- Callback logic shared by both branches of `getRankFor`: a non-null
0-based index is returned as `index + 1`; a null index yields a null rank. -/
def rankResponse (result : Option Nat) : Option Nat :=
  match result with
  | some r => some (r + 1)
  | none => none

/-- Operation `getRankFor(member)`: `sortOrder === Descending` selects `zrank`,
otherwise `zrevrank`; the reply goes through `rankResponse`. -/
def getRankFor (opts : LeaderboardOptions) (st : ZSet) (m : String) : Option Nat :=
  if opts.sortOrder = SortOrders.Descending then rankResponse (zrank st m)
  else rankResponse (zrevrank st m)

/-- Source interface `IRankWithScoresResult`: the pair built by `getRankWithScoreFor`. The
score field holds the raw `ZSCORE` reply (`null` for an absent member). -/
structure IRankWithScoresResult where
  rank : Nat
  score : Option ℚ
deriving DecidableEq

/-- JavaScript `replies[1] + 1` where `replies[1]` is a rank index or
`null`: `null` coerces to `0`, so `null + 1` evaluates to `1`. -/
def jsNullAddOne (r : Option Nat) : Nat :=
  match r with
  | none => 1
  | some i => i + 1

/-- Callback logic of `getRankWithScoreFor` over the `MULTI [zscore, rank]`
exec reply: a batch error yields `(null, null)`; success yields the pair
`{ rank: replies[1] + 1, score: replies[0] }`. -/
def getRankWithScoreForCb (reply : Except String (Option ℚ × Option Nat)) :
    Option String × Option IRankWithScoresResult :=
  match reply with
  | Except.error _ => (none, none)
  | Except.ok replies => (none, some { rank := jsNullAddOne replies.2, score := replies.1 })

/-- Operation `getRankWithScoreFor(member)` on the successful-batch path: the
transaction queues `zscore` then `zrank`/`zrevrank`, with the same
direction selection as `getRankFor`. -/
def getRankWithScoreFor (opts : LeaderboardOptions) (st : ZSet) (m : String) :
    Option IRankWithScoresResult :=
  let scoreReply := zscore st m
  let rankReply :=
    if opts.sortOrder = SortOrders.Descending then zrank st m else zrevrank st m
  (getRankWithScoreForCb (Except.ok (scoreReply, rankReply))).2

/-- The page size an operation actually uses: the explicit argument when one
is supplied, else the configured page size (overload dispatch on whether
the first parameter is the callback). -/
def effectivePageSize (opts : LeaderboardOptions) (pageSizeArg : Option ℚ) : ℚ :=
  pageSizeArg.getD opts.pageSize

/-- Operation `pageCount(pageSize?)`: `Math.ceil(zcard / pageSize)`. -/
def pageCount (opts : LeaderboardOptions) (st : ZSet) (pageSizeArg : Option ℚ) : ℤ :=
  ⌈(zcard st : ℚ) / effectivePageSize opts pageSizeArg⌉

/-- Operation `getPageFor(member, pageSize?)`: a `MULTI [zrank]` — always the
ascending primitive, with no direction selection — then a null index is
treated as rank `0` and a present index as `index + 1`, and the result is
`Math.ceil(rank / pageSize)`. -/
def getPageFor (opts : LeaderboardOptions) (st : ZSet) (m : String)
    (pageSizeArg : Option ℚ) : ℤ :=
  let pageSize := effectivePageSize opts pageSizeArg
  let rank : Nat :=
    match zrank st m with
    | none => 0
    | some i => i + 1
  ⌈(rank : ℚ) / pageSize⌉

/-- Operation `getTop`: the source body is empty — no store call is made and
the callback is never invoked, so no result window is ever produced. -/
def getTop (_opts : LeaderboardOptions) (_st : ZSet) (_param1 : ℚ)
    (_param2 _param3 : Option ℚ) : Option (List (String × ℚ)) :=
  none

/-! ### Concrete fixtures -/

/-- Example membership of the spec: A scores 10, B scores 20, C scores 30. -/
def demoState : ZSet := [("A", 10), ("B", 20), ("C", 30)]

/-- Two-member state: A scores 10, B scores 20. -/
def twoState : ZSet := [("A", 10), ("B", 20)]

/-- A leaderboard configured Ascending with the default page size. -/
def ascLb : LeaderboardOptions :=
  { name := "L", pageSize := 50, sortOrder := SortOrders.Ascending }

/-- A leaderboard configured Descending with the default page size. -/
def descLb : LeaderboardOptions :=
  { name := "L", pageSize := 50, sortOrder := SortOrders.Descending }

/-! ### Claim C1: rank direction on the example membership -/

/-- C1, counterexample. The claim says that with sortOrder = Ascending the
member A (lowest score 10) gets rank 1. On the code, an Ascending
leaderboard queries `zrevrank`, so A gets rank 3, not 1. -/
theorem c1_counterexample :
    getRankFor ascLb demoState "A" = some 3 ∧
    getRankFor ascLb demoState "A" ≠ some 1 := by
  decide

/-- C1, amended. On the membership A:10, B:20, C:30 the 1-based ranks
returned by `getRankFor` follow the OPPOSITE of the configured sort order:
with Ascending, A gets 3, B gets 2, C gets 1; with Descending, A gets 1,
B gets 2, C gets 3. -/
theorem c1_ranks_opposite_of_order :
    (getRankFor ascLb demoState "A" = some 3 ∧
     getRankFor ascLb demoState "B" = some 2 ∧
     getRankFor ascLb demoState "C" = some 1) ∧
    (getRankFor descLb demoState "A" = some 1 ∧
     getRankFor descLb demoState "B" = some 2 ∧
     getRankFor descLb demoState "C" = some 3) := by
  decide

/-! ### Claim C2: the rank primitive invoked is the opposite direction -/

/-- C2. In `getRankFor` and `getRankWithScoreFor`, a Descending leaderboard
uses the ascending-rank primitive `zrank` and an Ascending leaderboard uses
the descending-rank primitive `zrevrank`. -/
theorem c2_opposite_primitive (opts : LeaderboardOptions) (st : ZSet) (m : String) :
    (opts.sortOrder = SortOrders.Descending →
      getRankFor opts st m = rankResponse (zrank st m) ∧
      getRankWithScoreFor opts st m =
        some { rank := jsNullAddOne (zrank st m), score := zscore st m }) ∧
    (opts.sortOrder = SortOrders.Ascending →
      getRankFor opts st m = rankResponse (zrevrank st m) ∧
      getRankWithScoreFor opts st m =
        some { rank := jsNullAddOne (zrevrank st m), score := zscore st m }) := by
  constructor <;> intro h <;>
    simp [getRankFor, getRankWithScoreFor, getRankWithScoreForCb, h]

/-- C2, witness: the two sort orders at the concrete example state. -/
theorem c2_witness :
    (getRankFor descLb demoState "A" = rankResponse (zrank demoState "A") ∧
     getRankWithScoreFor descLb demoState "A" =
       some { rank := jsNullAddOne (zrank demoState "A"), score := zscore demoState "A" }) ∧
    (getRankFor ascLb demoState "A" = rankResponse (zrevrank demoState "A") ∧
     getRankWithScoreFor ascLb demoState "A" =
       some { rank := jsNullAddOne (zrevrank demoState "A"), score := zscore demoState "A" }) :=
  ⟨(c2_opposite_primitive descLb demoState "A").1 rfl,
   (c2_opposite_primitive ascLb demoState "A").2 rfl⟩

/-! ### Claim C4: absent member results -/

/-- C4, counterexample. For the absent member Z, `getRankFor` does return
null, but `getScoreFor` returns NaN (JavaScript `parseFloat(null)`), not
the null result the claim states. -/
theorem c4_counterexample :
    zscore demoState "Z" = none ∧
    getScoreFor demoState "Z" = JsVal.nan ∧
    JsVal.nan ≠ JsVal.null := by
  decide

/-- C4, amended. For every member absent from the leaderboard, `getRankFor`
returns a null result (under either sort order) and `getScoreFor` returns
NaN — the value of `parseFloat(null)` — rather than null. -/
theorem c4_absent_member (opts : LeaderboardOptions) (st : ZSet) (m : String)
    (h : zscore st m = none) :
    getRankFor opts st m = none ∧ getScoreFor st m = JsVal.nan := by
  constructor
  · simp [getRankFor, zrank, zrevrank, rankResponse, h]
  · simp [getScoreFor, getScoreForCb, parseFloatReply, h]

/-- C4, witness: the absent member Z on the example state. -/
theorem c4_witness :
    getRankFor ascLb demoState "Z" = none ∧ getScoreFor demoState "Z" = JsVal.nan :=
  c4_absent_member ascLb demoState "Z" (by decide)

/-! ### Claim C5: store errors are swallowed by the read operations -/

/-- C5. Whenever the store call fails, the `getScoreFor` callback and the
`getRankWithScoreFor` callback deliver a null result with a null error (the
store error is never propagated); on a successful reply they deliver the
store-derived value: `parseFloat` of the score reply, respectively the pair
built from the batch replies. -/
theorem c5_error_normalized (e : String) (scoreReply : Option ℚ)
    (batchReplies : Option ℚ × Option Nat) :
    getScoreForCb (Except.error e) = (none, JsVal.null) ∧
    getRankWithScoreForCb (Except.error e) = (none, none) ∧
    getScoreForCb (Except.ok scoreReply) = (none, parseFloatReply scoreReply) ∧
    getRankWithScoreForCb (Except.ok batchReplies) =
      (none, some { rank := jsNullAddOne batchReplies.2, score := batchReplies.1 }) :=
  ⟨rfl, rfl, rfl, rfl⟩

/-! ### Claim C3: getRankWithScoreFor vs getRankFor and getScoreFor -/

/-- C3, counterexample. For a member absent from an empty leaderboard,
`getRankWithScoreFor` does NOT return the null result `getRankFor` returns:
JavaScript evaluates `null + 1` to `1`, so it returns the non-null pair
with rank 1 and null score, while `getRankFor` returns null and
`getScoreFor` returns NaN. -/
theorem c3_counterexample :
    getRankWithScoreFor ascLb ([] : ZSet) "A" = some { rank := 1, score := none } ∧
    getRankWithScoreFor ascLb ([] : ZSet) "A" ≠ none ∧
    getRankFor ascLb ([] : ZSet) "A" = none ∧
    getScoreFor ([] : ZSet) "A" = JsVal.nan := by
  decide

/-- C3, amended. For a member present with score s, `getRankWithScoreFor`
returns the pair whose rank is exactly the 1-based rank `getRankFor`
returns and whose score equals (numerically) what `getScoreFor` returns,
and `getRankFor` is non-null there; for an absent member it instead
returns the non-null pair with rank 1 (JavaScript `null + 1`) and null
score, not the null result of the two single queries. -/
theorem c3_pair_consistency (opts : LeaderboardOptions) (st : ZSet) (m : String) :
    (∀ s r, zscore st m = some s → getRankFor opts st m = some r →
      getScoreFor st m = JsVal.num s ∧
      getRankWithScoreFor opts st m = some { rank := r, score := some s }) ∧
    (∀ s, zscore st m = some s → getRankFor opts st m ≠ none) ∧
    (zscore st m = none →
      getRankWithScoreFor opts st m = some { rank := 1, score := none }) := by
  refine ⟨fun s r hs hr => ⟨?_, ?_⟩, fun s hs => ?_, fun hs => ?_⟩
  · simp [getScoreFor, getScoreForCb, parseFloatReply, hs]
  · have key : ∀ o : Option Nat, rankResponse o = some r → jsNullAddOne o = r := by
      intro o h
      cases o <;> simp [rankResponse, jsNullAddOne] at h ⊢
      omega
    by_cases hso : opts.sortOrder = SortOrders.Descending
    · rw [getRankFor, if_pos hso] at hr
      simp [getRankWithScoreFor, getRankWithScoreForCb, hso, hs, key _ hr]
    · rw [getRankFor, if_neg hso] at hr
      simp [getRankWithScoreFor, getRankWithScoreForCb, hso, hs, key _ hr]
  · by_cases hso : opts.sortOrder = SortOrders.Descending <;>
      simp [getRankFor, zrank, zrevrank, rankResponse, hso, hs]
  · by_cases hso : opts.sortOrder = SortOrders.Descending <;>
      simp [getRankWithScoreFor, getRankWithScoreForCb, jsNullAddOne,
        zrank, zrevrank, hso, hs]

/-- C3, witness: the present member A (score 10, ascending rank query gives
3) and the absent member Z. -/
theorem c3_witness :
    (getScoreFor demoState "A" = JsVal.num 10 ∧
     getRankWithScoreFor ascLb demoState "A" = some { rank := 3, score := some 10 }) ∧
    getRankWithScoreFor descLb twoState "Z" = some { rank := 1, score := none } :=
  ⟨(c3_pair_consistency ascLb demoState "A").1 10 3 (by decide) (by decide),
   (c3_pair_consistency descLb twoState "Z").2.2 (by decide)⟩

/-! ### Claim C6: getPageFor -/

/-- C6, counterexample. On an Ascending leaderboard with members A:10 and
B:20 and page size 1, member A has `getRankFor` rank 2, so the claim
predicts page ceil(2/1) = 2; but `getPageFor` always queries the ascending
primitive `zrank`, giving page 1. -/
theorem c6_counterexample :
    getRankFor ascLb twoState "A" = some 2 ∧
    getPageFor ascLb twoState "A" (some 1) = 1 ∧
    (⌈((2 : ℚ)) / (1 : ℚ)⌉ : ℤ) = 2 ∧
    (1 : ℤ) ≠ 2 := by
  have hz : zrank twoState "A" = some 0 := by decide
  refine ⟨by decide, ?_, by norm_num, by decide⟩
  norm_num [getPageFor, hz, effectivePageSize]

/-- C6, amended. With a positive effective page size p, `getPageFor`
returns 0 for an absent member, and for a present member of 0-based
ascending rank i it returns ceil((i+1)/p) — the page computed from the
1-based ASCENDING-order rank `zrank + 1` (which agrees with `getRankFor`
only on Descending leaderboards) — which is always at least 1. -/
theorem c6_page_from_ascending_rank (opts : LeaderboardOptions) (st : ZSet)
    (m : String) (parg : Option ℚ) (hp : 0 < effectivePageSize opts parg) :
    (zscore st m = none → getPageFor opts st m parg = 0) ∧
    (∀ i, zrank st m = some i →
      getPageFor opts st m parg = ⌈((i : ℚ) + 1) / effectivePageSize opts parg⌉ ∧
      1 ≤ getPageFor opts st m parg) := by
  constructor
  · intro h
    simp [getPageFor, zrank, h]
  · intro i h
    have hq : getPageFor opts st m parg =
        ⌈((i : ℚ) + 1) / effectivePageSize opts parg⌉ := by
      simp only [getPageFor, h]
      norm_cast
    refine ⟨hq, ?_⟩
    rw [hq]
    have hpos : 0 < ((i : ℚ) + 1) / effectivePageSize opts parg :=
      div_pos (by positivity) hp
    have := Int.ceil_pos.mpr hpos
    omega

/-- C6, witness: page size 1, the absent member Z and the present member B
(ascending rank index 1). -/
theorem c6_witness :
    getPageFor ascLb twoState "Z" (some 1) = 0 ∧
    getPageFor ascLb twoState "B" (some 1) =
      ⌈((1 : ℚ) + 1) / effectivePageSize ascLb (some 1)⌉ ∧
    1 ≤ getPageFor ascLb twoState "B" (some 1) := by
  have hp : (0 : ℚ) < effectivePageSize ascLb (some 1) := by
    norm_num [effectivePageSize]
  exact ⟨(c6_page_from_ascending_rank ascLb twoState "Z" (some 1) hp).1 (by decide),
    ((c6_page_from_ascending_rank ascLb twoState "B" (some 1) hp).2 1 (by decide)).1,
    ((c6_page_from_ascending_rank ascLb twoState "B" (some 1) hp).2 1 (by decide)).2⟩

/-! ### Claim C7: pageCount -/

/-- C7. With a positive effective page size p (explicit argument, else the
configured one), `pageCount` returns ceil(cardinality / p); in particular
it returns 0 on an empty leaderboard, 1 when the cardinality equals p, and
2 when the cardinality equals p + 1. -/
theorem c7_pageCount_ceil (opts : LeaderboardOptions) (st : ZSet) (parg : Option ℚ)
    (hp : 0 < effectivePageSize opts parg) :
    pageCount opts st parg = ⌈(zcard st : ℚ) / effectivePageSize opts parg⌉ ∧
    (zcard st = 0 → pageCount opts st parg = 0) ∧
    ((zcard st : ℚ) = effectivePageSize opts parg → pageCount opts st parg = 1) ∧
    ((zcard st : ℚ) = effectivePageSize opts parg + 1 → pageCount opts st parg = 2) := by
  refine ⟨rfl, fun h => ?_, fun h => ?_, fun h => ?_⟩
  · simp [pageCount, h]
  · rw [pageCount, h, div_self (ne_of_gt hp), Int.ceil_one]
  · rw [pageCount, h]
    have hn1 : (1 : ℚ) < (zcard st : ℚ) := by
      rw [h]; linarith
    have hn : 1 < zcard st := by exact_mod_cast hn1
    have hn2 : (2 : ℚ) ≤ (zcard st : ℚ) := by exact_mod_cast hn
    have h1 : (1 : ℚ) ≤ effectivePageSize opts parg := by linarith
    rw [Int.ceil_eq_iff]
    constructor
    · push_cast
      rw [lt_div_iff₀ hp]
      linarith
    · push_cast
      rw [div_le_iff₀ hp]
      linarith

/-- C7, witness: two members with page size 2 give exactly one page. -/
theorem c7_witness : pageCount ascLb twoState (some 2) = 1 := by
  have hp : (0 : ℚ) < effectivePageSize ascLb (some 2) := by
    norm_num [effectivePageSize]
  exact (c7_pageCount_ceil ascLb twoState (some 2) hp).2.2.1
    (by norm_num [zcard, twoState, effectivePageSize])

/-! ### Claim C8: rankMember round-trip and overwrite -/

/-- Upserting a member makes its score readable back unchanged. -/
theorem zscore_zadd_self (st : ZSet) (m : String) (s : ℚ) :
    zscore (zadd st m s) m = some s := by
  induction st with
  | nil => simp [zadd, zscore]
  | cons p rest ih =>
      rw [zadd]
      by_cases h : p.1 = m
      · rw [if_pos h]
        simp [zscore]
      · rw [if_neg h]
        have hb : (p.1 == m) = false := beq_eq_false_iff_ne.mpr h
        simpa [zscore, List.find?_cons, hb] using ih

/-- Upserting an already-present member keeps the number of entries. -/
theorem length_zadd_of_mem (st : ZSet) (m : String) (s : ℚ) (h : m ∈ keys st) :
    (zadd st m s).length = st.length := by
  induction st with
  | nil => cases h
  | cons p rest ih =>
      rw [zadd]
      by_cases hpm : p.1 = m
      · rw [if_pos hpm]
        rfl
      · rw [if_neg hpm]
        have hmem : m ∈ keys rest := by
          rcases (List.mem_cons).mp h with heq | htail
          · exact absurd heq.symm hpm
          · exact htail
        simp [List.length_cons, ih hmem]

/-- C8. After `rankMember(m, s)`, `getScoreFor(m)` returns s; and when m
was already a member, `rankMember` overwrites the existing entry rather
than adding a second one, leaving `memberCount` unchanged. -/
theorem c8_rank_then_score (st : ZSet) (m : String) (s : ℚ) :
    getScoreFor (rankMember st m s) m = JsVal.num s ∧
    (m ∈ keys st → memberCount (rankMember st m s) = memberCount st) := by
  constructor
  · simp [getScoreFor, getScoreForCb, parseFloatReply, rankMember, zscore_zadd_self]
  · intro h
    simpa [memberCount, zcard, rankMember] using length_zadd_of_mem st m s h

/-- C8, witness: re-ranking the existing member A with score 99. -/
theorem c8_witness :
    getScoreFor (rankMember demoState "A" 99) "A" = JsVal.num 99 ∧
    memberCount (rankMember demoState "A" 99) = memberCount demoState :=
  ⟨(c8_rank_then_score demoState "A" 99).1,
   (c8_rank_then_score demoState "A" 99).2 (by decide)⟩

/-! ### Claim C9: page-size invariant -/

/-- C9, counterexample. The pageSize setter performs no validation: after
constructing with the default and setting pageSize to -5, the engine holds
the non-positive page size -5, so the setter does not preserve
pageSize > 0. -/
theorem c9_counterexample :
    (setPageSize (-5) (mkLeaderboard "L" none none)).pageSize = -5 ∧
    ¬ 0 < (setPageSize (-5) (mkLeaderboard "L" none none)).pageSize := by
  decide

/-- C9, amended. A missing or non-positive pageSize supplied at
construction is replaced by the default 50, so a freshly constructed
engine always has pageSize > 0; but the pageSize setter stores any value
unvalidated, so it does NOT preserve pageSize > 0. -/
theorem c9_pageSize_policy (leaderboardName : String) (ps : Option ℚ)
    (so : Option SortOrders) (v : ℚ) (opts : LeaderboardOptions) :
    0 < (mkLeaderboard leaderboardName ps so).pageSize ∧
    (ps = none → (mkLeaderboard leaderboardName ps so).pageSize = DEFAULT_PAGE_SIZE) ∧
    (∀ p, ps = some p → p ≤ 0 →
      (mkLeaderboard leaderboardName ps so).pageSize = DEFAULT_PAGE_SIZE) ∧
    (setPageSize v opts).pageSize = v := by
  refine ⟨?_, fun h => ?_, fun p hps hp => ?_, ?_⟩
  · cases ps with
    | none => norm_num [mkLeaderboard, resolvePageSize, DEFAULT_PAGE_SIZE]
    | some p =>
        simp only [mkLeaderboard, resolvePageSize]
        by_cases h : p = 0 ∨ p < 0
        · rw [if_pos h]
          norm_num [DEFAULT_PAGE_SIZE]
        · rw [if_neg h]
          push_neg at h
          exact lt_of_le_of_ne h.2 (Ne.symm h.1)
  · simp [h, mkLeaderboard, resolvePageSize]
  · subst hps
    simp only [mkLeaderboard, resolvePageSize]
    rw [if_pos (Or.symm hp.lt_or_eq)]
  · by_cases h : v ≠ opts.pageSize
    · rw [setPageSize, if_pos h]
    · rw [setPageSize, if_neg h]
      exact (not_ne_iff.mp h).symm

/-- C9, witness: a negative configured page size falls back to 50, and the
setter stores 7 verbatim. -/
theorem c9_witness :
    0 < (mkLeaderboard "L" (some (-3)) none).pageSize ∧
    (mkLeaderboard "L" (some (-3)) none).pageSize = DEFAULT_PAGE_SIZE ∧
    (setPageSize 7 ascLb).pageSize = 7 :=
  ⟨(c9_pageSize_policy "L" (some (-3)) none 7 ascLb).1,
   (c9_pageSize_policy "L" (some (-3)) none 7 ascLb).2.2.1 (-3) rfl (by norm_num),
   (c9_pageSize_policy "L" (some (-3)) none 7 ascLb).2.2.2⟩

/-! ### Claim C10: getTop -/

/-- C10. The source body of `getTop` is empty: no result window is ever
produced, for any arguments — the claimed contiguous ordered window of
member/score pairs is never returned. -/
theorem c10_getTop_never_returns (opts : LeaderboardOptions) (st : ZSet)
    (p1 : ℚ) (p2 p3 : Option ℚ) :
    getTop opts st p1 p2 p3 = none :=
  rfl

end LeaderboardTS
